import Mathlib

/-!
Verification of the recipe detection / extraction / caching pipeline and the
recipe search pipeline of the recipe-assistant application, as a shallow
embedding in Lean 4.

Conventions of the embedding:
- Python floats are modelled as rationals; the decimal literals of the source
  are written as the exact decimals they denote.
- Python dictionaries parsed from model JSON replies are modelled as records
  whose fields are options: a missing key is none.  The str coercion the
  source applies to sub-fields is the identity on this string-typed model.
- Python str.strip is modelled by py_strip, dropping whitespace from both
  ends; str.lower by mapping Char.toLower over the characters.
- The in-memory cache dictionary is modelled as an association list with
  unique keys; the cache key is the content string the source hashes
  with MD5, the digest itself being a fixed deterministic encoding of it.
-/

/-- Python str.strip: drop whitespace characters from both ends of a string. -/
def py_strip (s : String) : String :=
  ⟨((s.data.dropWhile Char.isWhitespace).reverse.dropWhile Char.isWhitespace).reverse⟩

/-- Python str.lower, restricted to ASCII case mapping. -/
def to_lower (s : String) : String :=
  ⟨s.data.map Char.toLower⟩

/-- Python substring containment: does sub occur contiguously inside s. -/
def str_contains (s sub : String) : Bool :=
  decide (List.IsInfix sub.data s.data)

/-- Character test of the Japanese regex ranges Hiragana, Katakana and Kanji
of the source: U+3040-309F, U+30A0-30FF, U+4E00-9FAF. -/
def isJapaneseChar (c : Char) : Bool :=
  (0x3040 ≤ c.toNat && c.toNat ≤ 0x309F) ||
  (0x30A0 ≤ c.toNat && c.toNat ≤ 0x30FF) ||
  (0x4E00 ≤ c.toNat && c.toNat ≤ 0x9FAF)

/-- The detector of RecipeDetectorService for Japanese text: true iff some
character of the text lies in the Japanese Unicode ranges. -/
def detect_japanese (text : String) : Bool :=
  text.data.any isJapaneseChar

/-- The clamp max(0.0, min(1.0, x)) the validators apply to confidence. -/
def clamp01 (x : ℚ) : ℚ :=
  max 0 (min 1 x)

/-- Raw dictionary parsed from a model reply for recipe detection; every
field may be absent. -/
structure RawDetection where
  is_recipe : Option Bool
  confidence : Option ℚ
  reason : Option String
  detected_elements : Option (List String)
  language : Option String
deriving DecidableEq

/-- Validated detection result, the DetectionResult shape of the data model. -/
structure DetectionResult where
  is_recipe : Bool
  confidence : ℚ
  reason : String
  detected_elements : List String
  language : String
deriving DecidableEq

/-- The recipe confidence threshold of RecipeDetectorService. -/
def recipe_confidence_threshold : ℚ := 0.7

/-- Embedding of RecipeDetectorService._validate_detection_result: fill the
fields with defaults, clamp the confidence, and force is_recipe to false with
an appended explanation when the clamped confidence is below the threshold. -/
def validate_detection_result (result : RawDetection) : DetectionResult :=
  let validated : DetectionResult :=
    { is_recipe := result.is_recipe.getD false
      confidence := clamp01 (result.confidence.getD 0.0)
      reason := result.reason.getD "No reason provided"
      detected_elements := result.detected_elements.getD []
      language := result.language.getD "en" }
  if validated.confidence < recipe_confidence_threshold then
    { validated with
        is_recipe := false
        reason := validated.reason ++ " (Below confidence threshold: 0.7)" }
  else
    validated

/-- Raw ingredient dictionary from a model reply; every field may be absent. -/
structure RawIngredient where
  name : Option String
  quantity : Option String
  unit : Option String
  notes : Option String
deriving DecidableEq

/-- Validated ingredient record of the data model. -/
structure IngredientRecord where
  name : String
  quantity : String
  unit : String
  notes : String
deriving DecidableEq

/-- Raw dictionary parsed from a model reply for ingredient extraction.  An
entry of the ingredients list that is not a dictionary is modelled as none. -/
structure RawExtraction where
  ingredients : List (Option RawIngredient)
  serving_size : Option String
  confidence : Option ℚ
  language : Option String
deriving DecidableEq

/-- Validated extraction result, the ExtractionResult shape of the data model. -/
structure ExtractionResult where
  ingredients : List IngredientRecord
  serving_size : String
  confidence : ℚ
  language : String
  total_ingredients : Nat
deriving DecidableEq

/-- Loop body of _validate_ingredient_result: a non-dictionary entry is
skipped; an entry whose name key is absent or maps to the empty string is
skipped; otherwise the sub-fields are stripped, and the cleaned entry is kept
only when its stripped name is non-empty. -/
def clean_entry (entry : Option RawIngredient) : Option IngredientRecord :=
  match entry with
  | none => none
  | some ing =>
    match ing.name with
    | none => none
    | some n =>
      if n == "" then none
      else
        let cleaned : IngredientRecord :=
          { name := py_strip n
            quantity := py_strip (ing.quantity.getD "")
            unit := py_strip (ing.unit.getD "")
            notes := py_strip (ing.notes.getD "") }
        if cleaned.name == "" then none else some cleaned

/-- Embedding of RecipeDetectorService._validate_ingredient_result. -/
def validate_ingredient_result (result : RawExtraction) : ExtractionResult :=
  let validated_ingredients := result.ingredients.filterMap clean_entry
  { ingredients := validated_ingredients
    serving_size := py_strip (result.serving_size.getD "")
    confidence := clamp01 (result.confidence.getD 0.0)
    language := result.language.getD "en"
    total_ingredients := validated_ingredients.length }

/-- Keyword set of the fallback parser. -/
def fallback_keywords : List String :=
  ["recipe", "ingredient", "cook", "bake", "材料", "レシピ", "作り方"]

/-- Embedding of RecipeDetectorService._fallback_parse_response: keyword scan
of the lowered response, fixed confidence 0.5, language re-derived from the
raw response text. -/
def fallback_parse_response (response : String) : RawDetection :=
  let found := fallback_keywords.any (fun kw => str_contains (to_lower response) kw)
  { is_recipe := some found
    confidence := some 0.5
    reason := some "Fallback parsing due to JSON parsing error"
    detected_elements := some []
    language := some (if detect_japanese response then "ja" else "en") }

/-- The first-brace-to-last-brace span the source extracts with the greedy
dot-all regex: the span exists iff some closing brace follows the first
opening brace. -/
def brace_span (s : String) : Option String :=
  let cs := s.data
  match cs.findIdx? (fun c => c == '\x7b'), (cs.reverse.findIdx? (fun c => c == '\x7d')) with
  | some i, some jr =>
    let j := cs.length - 1 - jr
    if i < j then some ⟨(cs.drop i).take (j - i + 1)⟩ else none
  | _, _ => none

/-- Embedding of RecipeDetectorService._parse_ai_response, parametrized by
the JSON decoder applied to the extracted brace span: a decodable span gives
its decode, anything else falls back to the keyword heuristic. -/
def parse_ai_response (decode : String → Option RawDetection) (response : String) :
    RawDetection :=
  match brace_span response with
  | some span =>
    match decode span with
    | some r => r
    | none => fallback_parse_response response
  | none => fallback_parse_response response

/-- Cache entry of the in-memory cache: stored payload plus creation time. -/
structure CacheEntry (α : Type) where
  data : α
  timestamp : ℚ
deriving DecidableEq

/-- The in-memory cache dictionary, as an association list with unique keys. -/
abbrev Cache (α : Type) : Type := List (String × CacheEntry α)

/-- The cache time-to-live of RecipeDetectorService, one hour in seconds. -/
def cache_ttl : ℚ := 3600

/-- Dictionary lookup on the cache. -/
def cache_lookup {α : Type} (c : Cache α) (k : String) : Option (CacheEntry α) :=
  (c.find? (fun p => p.1 == k)).map Prod.snd

/-- Dictionary deletion on the cache. -/
def cache_erase {α : Type} (c : Cache α) (k : String) : Cache α :=
  c.filter (fun p => p.1 != k)

/-- Embedding of RecipeDetectorService._set_cache: store the payload under
the key, stamped with the current time, overwriting any previous entry. -/
def set_cache {α : Type} (c : Cache α) (cache_key : String) (d : α) (now : ℚ) : Cache α :=
  (cache_key, ⟨d, now⟩) :: cache_erase c cache_key

/-- Embedding of RecipeDetectorService._get_from_cache: return the stored
payload while the entry is younger than the TTL, otherwise delete the expired
entry and report a miss; the second component is the cache after the call. -/
def get_from_cache {α : Type} (c : Cache α) (cache_key : String) (now : ℚ) :
    Option α × Cache α :=
  match cache_lookup c cache_key with
  | some e =>
    if now - e.timestamp < cache_ttl then (some e.data, c)
    else (none, cache_erase c cache_key)
  | none => (none, c)

/-- Embedding of RecipeDetectorService._get_cache_key.  The source returns
the MD5 hex digest of this content string; the digest is a deterministic
encoding of it, so the embedding uses the content string itself as key. -/
def get_cache_key (url operation : String) : String :=
  url ++ "_" ++ operation

/-- Retrieved source document of the retrieval gateway. -/
structure SourceDoc where
  page_content : String
  metadata : List (String × String)
deriving DecidableEq

/-- Output of the combined retrieval and generation call of the QA chain. -/
structure QAOutput where
  result : String
  source_documents : List SourceDoc
deriving DecidableEq

/-- Structured recipe information heuristically derived from documents. -/
structure RecipeInfo where
  recipe_name : String
  ingredients : List String
  instructions : List String
  cooking_time : String
  tips : String
  confidence_score : ℚ
deriving DecidableEq

/-- Embedding of RAGService._extract_recipe_info: name from the first of the
first five lines holding a recipe keyword, ingredient lines by pattern and
digit scan with one output per matching pattern, capped at ten, and a
confidence score of min(0.2 times the document count, 1.0). -/
def extract_recipe_info (documents : List SourceDoc) : RecipeInfo :=
  if documents.isEmpty then
    { recipe_name := "", ingredients := [], instructions := []
      cooking_time := "", tips := "", confidence_score := 0.0 }
  else
    let combined_content := String.intercalate "\n\n" (documents.map (·.page_content))
    let lines := combined_content.splitOn "\n"
    let recipe_name :=
      match (lines.take 5).find? (fun line =>
          ["recipe", "レシピ", "料理"].any (fun kw => str_contains (to_lower line) kw)) with
      | some line => py_strip line
      | none => ""
    let ingredient_patterns := ["材料", "ingredients", "・", "-", "*"]
    let ingredients := lines.flatMap (fun line =>
      (ingredient_patterns.filter (fun pat =>
        str_contains (to_lower line) pat && line.data.any Char.isDigit)).map
          (fun _ => py_strip line))
    { recipe_name := recipe_name
      ingredients := ingredients.take 10
      instructions := []
      cooking_time := ""
      tips := ""
      confidence_score := min ((documents.length : ℚ) * 0.2) 1.0 }

/-- Source entry of a RecipeSearchResult: truncated content plus metadata. -/
structure SourceEntry where
  content : String
  metadata : List (String × String)
deriving DecidableEq

/-- Raw dictionary fed to RAGService._validate_retrieval_result; every field
may be absent. -/
structure RawSearch where
  recipe_found : Option Bool
  recipe_name : Option String
  answer : Option String
  ingredients : Option (List String)
  instructions : Option (List String)
  confidence : Option ℚ
  sources : Option (List SourceEntry)
  processing_time : Option ℚ
  timestamp : Option String
  language : Option String
  query_used : Option String
deriving DecidableEq

/-- RecipeSearchResult shape returned by search_recipe.  The error field is
only populated by the guard and exception branches; the validated success
branch drops the query_used key, so both are options here. -/
structure SearchResult where
  recipe_found : Bool
  recipe_name : String
  answer : String
  ingredients : List String
  instructions : List String
  confidence : ℚ
  sources : List SourceEntry
  processing_time : ℚ
  timestamp : String
  language : String
  error : Option String
  query_used : Option String
deriving DecidableEq

/-- Embedding of RAGService._validate_retrieval_result: defaults for missing
fields and the clamp on confidence.  The timestamp default of the source is
the current time, passed here as now_ts. -/
def validate_retrieval_result (result : RawSearch) (now_ts : String) : SearchResult :=
  { recipe_found := result.recipe_found.getD false
    recipe_name := result.recipe_name.getD ""
    answer := result.answer.getD ""
    ingredients := result.ingredients.getD []
    instructions := result.instructions.getD []
    confidence := clamp01 (result.confidence.getD 0.0)
    sources := result.sources.getD []
    processing_time := result.processing_time.getD 0.0
    timestamp := result.timestamp.getD now_ts
    language := result.language.getD "auto"
    error := none
    query_used := none }

/-- Truthiness of an optional configuration string: present and non-empty. -/
def py_truthy_str (s : Option String) : Bool :=
  match s with
  | none => false
  | some v => !(v == "")

/-- Embedding of RAGService.is_available: the retrieval library must be
importable, the four required settings non-empty, and initialization must
have succeeded. -/
def is_available (langchain : Bool) (knowledge_base_id s3_bucket region model_id : Option String)
    (initialized : Bool) : Bool :=
  if !langchain then false
  else if !(py_truthy_str knowledge_base_id && py_truthy_str s3_bucket &&
            py_truthy_str region && py_truthy_str model_id) then false
  else initialized

/-- Embedding of RAGService._format_dish_query: several candidate phrasings
are built and the first is returned. -/
def format_dish_query (dish_name : String) : String :=
  let d := py_strip dish_name
  let queries := [d ++ "のレシピ", d ++ " recipe", d ++ "の作り方", "How to make " ++ d, d]
  queries.headD d

/-- A single-quote character as a string, for building the apology text. -/
def squote : String := ⟨[Char.ofNat 39]⟩

/-- Embedding of RAGService.search_recipe.  The availability check is passed
as a boolean; the combined retrieval plus generation call is passed as an
Except value whose error case models a raised exception inside the try block;
wall-clock durations and the timestamp are passed in.  The guard branch
returns immediately with zero processing time; the exception branch returns
the structured failure; the success branch derives recipe_found from the
length of the stripped answer, truncates the first three sources to 200
characters, and validates the response. -/
def search_recipe (available : Bool) (dish_name language : String)
    (qa : Except String QAOutput) (proc_time : ℚ) (now_ts : String) : SearchResult :=
  if !available then
    { recipe_found := false
      recipe_name := ""
      answer := "RAG service is not available. Please check configuration."
      ingredients := []
      instructions := []
      confidence := 0.0
      sources := []
      processing_time := 0.0
      timestamp := now_ts
      language := language
      error := some "Service not available"
      query_used := none }
  else
    match qa with
    | Except.error e =>
      { recipe_found := false
        recipe_name := dish_name
        answer := "申し訳ございませんが、" ++ squote ++ dish_name ++ squote ++
                  "のレシピを見つけることができませんでした。"
        ingredients := []
        instructions := []
        confidence := 0.0
        sources := []
        processing_time := proc_time
        timestamp := now_ts
        language := language
        error := some e
        query_used := none }
    | Except.ok out =>
      let query := format_dish_query dish_name
      let answer := out.result
      let source_documents := out.source_documents
      let recipe_info := extract_recipe_info source_documents
      let recipe_found := !(answer == "") && decide (50 < (py_strip answer).length)
      let response : RawSearch :=
        { recipe_found := some recipe_found
          recipe_name := some (if recipe_info.recipe_name == "" then dish_name
                               else recipe_info.recipe_name)
          answer := some answer
          ingredients := some recipe_info.ingredients
          instructions := some recipe_info.instructions
          confidence := some recipe_info.confidence_score
          sources := some ((source_documents.take 3).map (fun doc =>
            { content := if 200 < doc.page_content.length
                         then doc.page_content.take 200 ++ "..."
                         else doc.page_content
              metadata := doc.metadata }))
          processing_time := some proc_time
          timestamp := some now_ts
          language := some language
          query_used := some query }
      validate_retrieval_result response now_ts

/-- Page data returned by the page fetcher.  The structured_data field is
modelled by its truthiness, which is all detect_recipe reads of it. -/
structure PageData where
  title : Option String
  meta_description : Option String
  content : Option String
  structured_data : Bool
  recipe_indicators : List (String × Bool)
deriving DecidableEq

/-- Full detection result dictionary returned by detect_recipe: the validated
DetectionResult fields plus url, timing and page metadata. -/
structure DetectionFull where
  is_recipe : Bool
  confidence : ℚ
  reason : String
  detected_elements : List String
  language : String
  url : String
  processing_time : ℚ
  timestamp : String
  meta_title : Option String
  meta_content_length : Nat
  meta_has_structured_data : Bool
  meta_recipe_indicators : List (String × Bool)
deriving DecidableEq

/-- One optional, truthiness-guarded, tagged part of the combined content. -/
def opt_part (tag : String) (v : Option String) : List String :=
  match v with
  | some s => if s == "" then [] else [tag ++ s]
  | none => []

/-- The combined analysis content detect_recipe builds from the fetched page:
tagged title, meta description and content, joined by blank lines. -/
def combined_page_content (page : PageData) : String :=
  String.intercalate "\n\n" (opt_part "Title: " page.title ++
    opt_part "Description: " page.meta_description ++
    opt_part "Content: " page.content)

/-- Embedding of RecipeDetectorService._create_recipe_detection_prompt: the
Japanese template when the preference is ja, or auto with Japanese characters
detected in the content; otherwise the English template.  Content is
truncated to 3000 characters. -/
def create_recipe_detection_prompt (content : String) (language : String) : String :=
  let c := content.take 3000
  if language == "ja" || (language == "auto" && detect_japanese content) then
    "あなたは料理レシピの専門家です。以下のウェブページのコンテンツを分析して、これが料理のレシピページかどうかを判定してください。\n\nコンテンツ:\n" ++
    c ++
    "  # Limit content length\n\n以下の基準で判定してください：\n1. 材料リストが含まれているか\n2. 調理手順や作り方が含まれているか  \n3. 料理名や完成品の説明があるか\n4. 調理時間や分量の記載があるか\n\n回答は以下のJSON形式で返してください：\n\x7b\n    \"is_recipe\": true/false,\n    \"confidence\": 0.0-1.0,\n    \"reason\": \"判定理由\",\n    \"detected_elements\": [\"要素1\", \"要素2\", ...],\n    \"language\": \"ja\"\n\x7d"
  else
    "You are a culinary expert. Analyze the following web page content and determine if this is a recipe page.\n\nContent:\n" ++
    c ++
    "  # Limit content length\n\nEvaluate based on these criteria:\n1. Contains ingredient list\n2. Contains cooking instructions or method\n3. Has dish name or description\n4. Includes cooking time or serving information\n\nPlease respond in the following JSON format:\n\x7b\n    \"is_recipe\": true/false,\n    \"confidence\": 0.0-1.0,\n    \"reason\": \"reasoning for the decision\",\n    \"detected_elements\": [\"element1\", \"element2\", ...],\n    \"language\": \"en\"\n\x7d"

/-- Embedding of RecipeDetectorService.detect_recipe.  The remote model is
passed as the function invoke_model from prompt to reply text (the content
extraction from the gateway envelope is the identity on this string-typed
model), JSON decoding as decode, and clock readings as now, proc_time and
now_ts.  The function returns the result dictionary together with the cache
after the call: a fresh result is cached on the full path, while the
empty-content short circuit returns before any cache write. -/
def detect_recipe (cache : Cache DetectionFull) (url language : String) (page : PageData)
    (invoke_model : String → String) (decode : String → Option RawDetection)
    (now proc_time : ℚ) (now_ts : String) : DetectionFull × Cache DetectionFull :=
  let cache_key := get_cache_key url ("detect_" ++ language)
  match get_from_cache cache cache_key now with
  | (some cached, cache2) => (cached, cache2)
  | (none, cache2) =>
    let combined_content := combined_page_content page
    if py_strip combined_content == "" then
      ({ is_recipe := false
         confidence := 0.0
         reason := "No analyzable content found on the webpage"
         detected_elements := []
         language := "en"
         url := url
         processing_time := proc_time
         timestamp := now_ts
         meta_title := page.title
         meta_content_length := 0
         meta_has_structured_data := page.structured_data
         meta_recipe_indicators := page.recipe_indicators }, cache2)
    else
      let prompt := create_recipe_detection_prompt combined_content language
      let response_text := invoke_model prompt
      let raw_result := parse_ai_response decode response_text
      let v := validate_detection_result raw_result
      let result : DetectionFull :=
        { is_recipe := v.is_recipe
          confidence := v.confidence
          reason := v.reason
          detected_elements := v.detected_elements
          language := v.language
          url := url
          processing_time := proc_time
          timestamp := now_ts
          meta_title := page.title
          meta_content_length := (page.content.getD "").length
          meta_has_structured_data := page.structured_data
          meta_recipe_indicators := page.recipe_indicators }
      (result, set_cache cache2 cache_key result now)

/-- Concrete raw detection dictionary used to witness the threshold rule. -/
def c1_raw : RawDetection :=
  { is_recipe := some true
    confidence := some 0.5
    reason := some "maybe a recipe"
    detected_elements := some []
    language := some "en" }

/-- Concrete raw detection dictionaries for the clamp examples. -/
def c2_raw_high : RawDetection :=
  { is_recipe := none, confidence := some 1.5, reason := none
    detected_elements := none, language := none }

/-- Concrete raw detection dictionary with negative confidence. -/
def c2_raw_neg : RawDetection :=
  { is_recipe := none, confidence := some (-0.3), reason := none
    detected_elements := none, language := none }

/-- Concrete raw detection dictionary with no confidence key. -/
def c2_raw_missing : RawDetection :=
  { is_recipe := none, confidence := none, reason := none
    detected_elements := none, language := none }

/-- Concrete raw extraction dictionary of the C6 example. -/
def c6_raw : RawExtraction :=
  { ingredients :=
      [some { name := some "  ", quantity := none, unit := none, notes := none },
       some { name := some "Salt", quantity := some "1", unit := some "tsp", notes := none }]
    serving_size := none
    confidence := none
    language := none }

/-- First concrete entry of the C6 example: whitespace-only name. -/
def c6_blank_entry : RawIngredient :=
  { name := some "  ", quantity := none, unit := none, notes := none }

/-- Second concrete entry of the C6 example: a complete salt record. -/
def c6_salt_entry : RawIngredient :=
  { name := some "Salt", quantity := some "1", unit := some "tsp", notes := none }

/-- Concrete model reply with no JSON object but a keyword. -/
def c4_response : String := "This page is a recipe with ingredients."

/-- Answer of exactly 51 non-whitespace characters. -/
def answer51 : String := ⟨List.replicate 51 'a'⟩

/-- Answer of exactly 50 non-whitespace characters. -/
def answer50 : String := ⟨List.replicate 50 'a'⟩

/-- Concrete fetched page with no title, description or content. -/
def empty_page : PageData :=
  { title := none, meta_description := none, content := none
    structured_data := false, recipe_indicators := [] }

/-! Helper lemmas shared by the claim theorems. -/

/-- Lower bound of the clamp. -/
theorem clamp01_nonneg (x : ℚ) : 0 ≤ clamp01 x :=
  le_max_left 0 (min 1 x)

/-- Upper bound of the clamp. -/
theorem clamp01_le_one (x : ℚ) : clamp01 x ≤ 1 :=
  max_le zero_le_one (min_le_left 1 x)

/-- The clamp fixes values already in the unit interval. -/
theorem clamp01_eq_self {x : ℚ} (h0 : 0 ≤ x) (h1 : x ≤ 1) : clamp01 x = x := by
  unfold clamp01
  rw [min_eq_right h1, max_eq_right h0]

/-- The validated detection confidence is the clamped raw confidence. -/
theorem detection_confidence_eq (r : RawDetection) :
    (validate_detection_result r).confidence = clamp01 (r.confidence.getD 0.0) := by
  simp only [validate_detection_result]
  split <;> rfl

/-- C1: if the clamped raw confidence is below the 0.7 threshold, the
validated detection result has is_recipe false regardless of the raw flag,
and the reason is the raw reason with the threshold explanation appended. -/
theorem validate_detection_below_threshold (r : RawDetection)
    (h : clamp01 (r.confidence.getD 0.0) < recipe_confidence_threshold) :
    (validate_detection_result r).is_recipe = false ∧
    (validate_detection_result r).reason =
      r.reason.getD "No reason provided" ++ " (Below confidence threshold: 0.7)" := by
  simp only [validate_detection_result]
  rw [if_pos h]
  exact ⟨rfl, rfl⟩

/-- Witness for C1 at a concrete raw dictionary whose raw flag is true. -/
theorem validate_detection_below_threshold_witness :
    clamp01 ((c1_raw.confidence).getD 0.0) < recipe_confidence_threshold ∧
    c1_raw.is_recipe = some true ∧
    (validate_detection_result c1_raw).is_recipe = false ∧
    (validate_detection_result c1_raw).reason =
      "maybe a recipe (Below confidence threshold: 0.7)" := by
  have hc : clamp01 ((c1_raw.confidence).getD 0.0) < recipe_confidence_threshold := by
    norm_num [c1_raw, clamp01, recipe_confidence_threshold, min_def, max_def]
  have h := validate_detection_below_threshold c1_raw hc
  refine ⟨hc, rfl, h.1, ?_⟩
  rw [h.2]
  decide

/-- C2: every validated confidence lies in the unit interval, out-of-range
numeric inputs are clamped, and a missing confidence defaults to zero. -/
theorem confidence_fields_clamped :
    (∀ r : RawDetection, 0 ≤ (validate_detection_result r).confidence ∧
      (validate_detection_result r).confidence ≤ 1) ∧
    (∀ r : RawExtraction, 0 ≤ (validate_ingredient_result r).confidence ∧
      (validate_ingredient_result r).confidence ≤ 1) ∧
    (∀ (r : RawSearch) (ts : String), 0 ≤ (validate_retrieval_result r ts).confidence ∧
      (validate_retrieval_result r ts).confidence ≤ 1) ∧
    (validate_detection_result c2_raw_high).confidence = 1 ∧
    (validate_detection_result c2_raw_neg).confidence = 0 ∧
    (validate_detection_result c2_raw_missing).confidence = 0 := by
  refine ⟨?_, ?_, ?_, ?_, ?_, ?_⟩
  · intro r
    rw [detection_confidence_eq]
    exact ⟨clamp01_nonneg _, clamp01_le_one _⟩
  · intro r
    exact ⟨clamp01_nonneg _, clamp01_le_one _⟩
  · intro r ts
    exact ⟨clamp01_nonneg _, clamp01_le_one _⟩
  · rw [detection_confidence_eq]
    norm_num [c2_raw_high, clamp01, min_def, max_def]
  · rw [detection_confidence_eq]
    norm_num [c2_raw_neg, clamp01, min_def, max_def]
  · rw [detection_confidence_eq]
    norm_num [c2_raw_missing, clamp01, min_def, max_def]

/-- C6: ingredient validation drops exactly the entries whose name is empty
or whitespace-only after stripping, keeps the others with all sub-fields
stripped, and the concrete example validates to exactly one record. -/
theorem ingredient_names_filtered :
    (∀ ing : RawIngredient,
      (py_strip ((ing.name).getD "") = "" → clean_entry (some ing) = none) ∧
      (py_strip ((ing.name).getD "") ≠ "" → clean_entry (some ing) =
        some { name := py_strip ((ing.name).getD "")
               quantity := py_strip ((ing.quantity).getD "")
               unit := py_strip ((ing.unit).getD "")
               notes := py_strip ((ing.notes).getD "") })) ∧
    (validate_ingredient_result c6_raw).ingredients =
      [{ name := "Salt", quantity := "1", unit := "tsp", notes := "" }] := by
  constructor
  · intro ing
    cases hn : ing.name with
    | none =>
      refine ⟨fun _ => by simp [clean_entry, hn], fun h => absurd rfl h⟩
    | some n =>
      by_cases he : n = ""
      · subst he
        exact ⟨fun _ => by simp [clean_entry, hn], fun h => absurd rfl h⟩
      · by_cases hs : py_strip n = ""
        · refine ⟨fun _ => ?_, fun h => absurd hs (by simpa using h)⟩
          simp [clean_entry, hn, he, hs]
        · refine ⟨fun h => absurd (by simpa using h) hs, fun _ => ?_⟩
          simp [clean_entry, hn, he, hs]
  · decide

/-- Witness for C6 applying the filter characterization to the two concrete
entries of the example. -/
theorem ingredient_names_filtered_witness :
    py_strip ((c6_blank_entry.name).getD "") = "" ∧
    clean_entry (some c6_blank_entry) = none ∧
    py_strip ((c6_salt_entry.name).getD "") ≠ "" ∧
    clean_entry (some c6_salt_entry) =
      some { name := "Salt", quantity := "1", unit := "tsp", notes := "" } := by
  refine ⟨by decide, ?_, by decide, ?_⟩
  · exact (ingredient_names_filtered.1 c6_blank_entry).1 (by decide)
  · exact (ingredient_names_filtered.1 c6_salt_entry).2 (by decide)

/-- C7: after validation the total_ingredients count equals the length of the
validated ingredient list. -/
theorem total_ingredients_eq_length (r : RawExtraction) :
    (validate_ingredient_result r).total_ingredients =
      (validate_ingredient_result r).ingredients.length := rfl

/-- Lookup after erasure of the same key always misses. -/
theorem cache_lookup_erase {α : Type} (c : Cache α) (k : String) :
    cache_lookup (cache_erase c k) k = none := by
  unfold cache_lookup cache_erase
  rw [Option.map_eq_none', List.find?_eq_none]
  intro x hx
  rw [List.mem_filter] at hx
  simpa using hx.2

/-- Lookup on a freshly stored cache finds the fresh entry. -/
theorem cache_lookup_set {α : Type} (c : Cache α) (k : String) (d : α) (t : ℚ) :
    cache_lookup (set_cache c k d t) k = some ⟨d, t⟩ := by
  simp [cache_lookup, set_cache]

/-- C3: after a put of payload d under key k at time t, a get at time tg with
tg - t below the 3600 second TTL returns the stored payload and leaves the
cache unchanged, while a get once 3600 seconds or more have elapsed misses
and removes the entry for k. -/
theorem cache_roundtrip {α : Type} (c : Cache α) (k : String) (d : α) (t tg : ℚ) :
    (tg - t < 3600 →
      get_from_cache (set_cache c k d t) k tg = (some d, set_cache c k d t)) ∧
    (3600 ≤ tg - t →
      (get_from_cache (set_cache c k d t) k tg).1 = none ∧
      cache_lookup (get_from_cache (set_cache c k d t) k tg).2 k = none) := by
  have hl := cache_lookup_set c k d t
  constructor
  · intro h
    have h' : tg - t < cache_ttl := by rw [cache_ttl]; exact_mod_cast h
    simp [get_from_cache, hl, h']
  · intro h
    have h' : ¬ (tg - t < cache_ttl) := by
      rw [cache_ttl]
      push_neg
      exact_mod_cast h
    refine ⟨by simp [get_from_cache, hl, h'], ?_⟩
    simp only [get_from_cache, hl]
    rw [if_neg h']
    exact cache_lookup_erase _ k

/-- Witness for C3 at a concrete key, payload and pair of read times. -/
theorem cache_roundtrip_witness :
    get_from_cache (set_cache ([] : Cache ℕ) "k" 7 0) "k" 10 =
      (some 7, set_cache ([] : Cache ℕ) "k" 7 0) ∧
    (get_from_cache (set_cache ([] : Cache ℕ) "k" 7 0) "k" 3600).1 = none ∧
    cache_lookup (get_from_cache (set_cache ([] : Cache ℕ) "k" 7 0) "k" 3600).2 "k" =
      none := by
  have h1 := (cache_roundtrip ([] : Cache ℕ) "k" 7 0 10).1 (by norm_num)
  have h2 := (cache_roundtrip ([] : Cache ℕ) "k" 7 0 3600).2 (by norm_num)
  exact ⟨h1, h2.1, h2.2⟩

/-- C4: when no JSON object can be decoded from the model reply (no brace
span, or the span fails to decode), parsing falls back to the keyword
heuristic, and a reply containing a keyword of the fixed set yields the raw
fallback result with is_recipe true, confidence 0.5, and the language
re-derived from the raw reply text. -/
theorem parse_ai_response_fallback (decode : String → Option RawDetection)
    (response : String)
    (h : ∀ span, brace_span response = some span → decode span = none) :
    parse_ai_response decode response = fallback_parse_response response ∧
    ((fallback_keywords.any (fun kw => str_contains (to_lower response) kw)) = true →
      (fallback_parse_response response).is_recipe = some true ∧
      (fallback_parse_response response).confidence = some 0.5 ∧
      (fallback_parse_response response).language =
        some (if detect_japanese response then "ja" else "en")) := by
  constructor
  · unfold parse_ai_response
    cases hb : brace_span response with
    | none => rfl
    | some span => simp [h span hb]
  · intro hk
    refine ⟨?_, rfl, rfl⟩
    simp [fallback_parse_response, hk]

/-- Witness for C4 at a concrete undecodable reply containing a keyword. -/
theorem parse_ai_response_fallback_witness :
    parse_ai_response (fun _ => none) c4_response = fallback_parse_response c4_response ∧
    (fallback_parse_response c4_response).is_recipe = some true ∧
    (fallback_parse_response c4_response).confidence = some 0.5 ∧
    (fallback_parse_response c4_response).language = some "en" := by
  have h := parse_ai_response_fallback (fun _ => none) c4_response (fun _ _ => rfl)
  have h2 := h.2 (by decide)
  refine ⟨h.1, h2.1, h2.2.1, ?_⟩
  rw [h2.2.2]
  decide

/-- C5: when the retrieval and generation gateway is unavailable,
search_recipe returns recipe_found false, confidence zero, a non-empty error
string, and zero processing time; being a total function of its inputs, the
embedded search raises nothing. -/
theorem search_recipe_unavailable (langchain : Bool)
    (kb s3 region model : Option String) (initialized : Bool)
    (dish lang : String) (qa : Except String QAOutput) (pt : ℚ) (ts : String)
    (h : is_available langchain kb s3 region model initialized = false) :
    (search_recipe (is_available langchain kb s3 region model initialized)
      dish lang qa pt ts).recipe_found = false ∧
    (search_recipe (is_available langchain kb s3 region model initialized)
      dish lang qa pt ts).confidence = 0 ∧
    (search_recipe (is_available langchain kb s3 region model initialized)
      dish lang qa pt ts).error = some "Service not available" ∧
    "Service not available" ≠ "" ∧
    (search_recipe (is_available langchain kb s3 region model initialized)
      dish lang qa pt ts).processing_time = 0 := by
  rw [h]
  refine ⟨rfl, ?_, rfl, by decide, ?_⟩
  · norm_num [search_recipe]
  · norm_num [search_recipe]

/-- Witness for C5 with the retrieval library unavailable and nothing
configured. -/
theorem search_recipe_unavailable_witness :
    (search_recipe (is_available false none none none none false)
      "curry" "auto" (Except.ok { result := "", source_documents := [] }) 0 "t").recipe_found =
      false ∧
    (search_recipe (is_available false none none none none false)
      "curry" "auto" (Except.ok { result := "", source_documents := [] }) 0 "t").confidence =
      0 ∧
    (search_recipe (is_available false none none none none false)
      "curry" "auto" (Except.ok { result := "", source_documents := [] }) 0 "t").error =
      some "Service not available" ∧
    "Service not available" ≠ "" ∧
    (search_recipe (is_available false none none none none false)
      "curry" "auto"
      (Except.ok { result := "", source_documents := [] }) 0 "t").processing_time = 0 :=
  search_recipe_unavailable false none none none none false "curry" "auto"
    (Except.ok { result := "", source_documents := [] }) 0 "t" rfl

/-- C9: on the successful path, recipe_found is true exactly when the
generated answer is non-empty and its stripped length exceeds 50 characters;
in particular 51 non-whitespace characters yield true and 50 yield false. -/
theorem search_recipe_found_length_iff :
    (∀ (dish lang : String) (out : QAOutput) (pt : ℚ) (ts : String),
      (search_recipe true dish lang (Except.ok out) pt ts).recipe_found = true ↔
        (out.result ≠ "" ∧ 50 < (py_strip out.result).length)) ∧
    (search_recipe true "pasta" "en"
      (Except.ok { result := answer51, source_documents := [] }) 0 "t").recipe_found = true ∧
    (search_recipe true "pasta" "en"
      (Except.ok { result := answer50, source_documents := [] }) 0 "t").recipe_found =
      false := by
  refine ⟨?_, by decide, by decide⟩
  intro dish lang out pt ts
  simp [search_recipe, validate_retrieval_result]

/-- Witness for C9 applying the characterization at a concrete 51-character
answer. -/
theorem search_recipe_found_length_iff_witness :
    (search_recipe true "sushi" "en"
      (Except.ok { result := answer51, source_documents := [] }) 0 "ts").recipe_found =
      true :=
  (search_recipe_found_length_iff.1 "sushi" "en"
    { result := answer51, source_documents := [] } 0 "ts").mpr ⟨by decide, by decide⟩

/-- C10: on the successful path the returned confidence is exactly
min(0.2 times the retrieved document count, 1.0), a function of the document
count alone. -/
theorem search_recipe_confidence_formula (dish lang : String) (out : QAOutput)
    (pt : ℚ) (ts : String) :
    (search_recipe true dish lang (Except.ok out) pt ts).confidence =
      min ((out.source_documents.length : ℚ) * 0.2) 1.0 := by
  have hc : (search_recipe true dish lang (Except.ok out) pt ts).confidence =
      clamp01 (extract_recipe_info out.source_documents).confidence_score := by
    simp [search_recipe, validate_retrieval_result]
  rw [hc]
  by_cases hd : out.source_documents.isEmpty
  · have h0 : out.source_documents.length = 0 := by
      rw [List.isEmpty_iff] at hd
      rw [hd]
      rfl
    rw [extract_recipe_info, if_pos hd, h0]
    norm_num [clamp01, min_def, max_def]
  · have he : (extract_recipe_info out.source_documents).confidence_score =
        min ((out.source_documents.length : ℚ) * 0.2) 1.0 := by
      simp only [extract_recipe_info, if_neg hd]
    rw [he]
    refine clamp01_eq_self (le_min ?_ ?_) ?_
    · positivity
    · norm_num
    · have := min_le_right ((out.source_documents.length : ℚ) * 0.2) 1.0
      calc min ((out.source_documents.length : ℚ) * 0.2) 1.0 ≤ 1.0 := this
        _ = 1 := by norm_num

/-- C8 (amended): when the detection key is absent from the cache and the
combined fetched text is empty after stripping, detect_recipe short-circuits
to a not-recipe result with zero confidence, does not depend on the remote
model or the JSON decoder, and does not store the short-circuit result: the
detection key is still absent from the returned cache. -/
theorem detect_recipe_empty_content (cache : Cache DetectionFull) (url language : String)
    (page : PageData) (im im2 : String → String) (de de2 : String → Option RawDetection)
    (now pt : ℚ) (ts : String)
    (h0 : cache_lookup cache (get_cache_key url ("detect_" ++ language)) = none)
    (h1 : py_strip (combined_page_content page) = "") :
    (detect_recipe cache url language page im de now pt ts).1.is_recipe = false ∧
    (detect_recipe cache url language page im de now pt ts).1.confidence = 0 ∧
    (detect_recipe cache url language page im de now pt ts).1.reason =
      "No analyzable content found on the webpage" ∧
    detect_recipe cache url language page im2 de2 now pt ts =
      detect_recipe cache url language page im de now pt ts ∧
    cache_lookup (detect_recipe cache url language page im de now pt ts).2
      (get_cache_key url ("detect_" ++ language)) = none := by
  have hg : get_from_cache cache (get_cache_key url ("detect_" ++ language)) now =
      (none, cache) := by
    unfold get_from_cache
    rw [h0]
  refine ⟨?_, ?_, ?_, ?_, ?_⟩
  · simp [detect_recipe, hg, h1]
  · norm_num [detect_recipe, hg, h1]
  · simp [detect_recipe, hg, h1]
  · simp [detect_recipe, hg, h1]
  · simp [detect_recipe, hg, h1, h0]

/-- Witness for C8 at a concrete empty page, empty cache and two distinct
model and decoder stubs. -/
theorem detect_recipe_empty_content_witness :
    (detect_recipe ([] : Cache DetectionFull) "http://example.com" "auto" empty_page
      (fun _ => "model reply") (fun _ => none) 0 0 "t0").1.is_recipe = false ∧
    (detect_recipe ([] : Cache DetectionFull) "http://example.com" "auto" empty_page
      (fun _ => "model reply") (fun _ => none) 0 0 "t0").1.confidence = 0 ∧
    (detect_recipe ([] : Cache DetectionFull) "http://example.com" "auto" empty_page
      (fun _ => "model reply") (fun _ => none) 0 0 "t0").1.reason =
      "No analyzable content found on the webpage" ∧
    detect_recipe ([] : Cache DetectionFull) "http://example.com" "auto" empty_page
      (fun _ => "another reply") (fun _ => some c1_raw) 0 0 "t0" =
      detect_recipe ([] : Cache DetectionFull) "http://example.com" "auto" empty_page
      (fun _ => "model reply") (fun _ => none) 0 0 "t0" ∧
    cache_lookup (detect_recipe ([] : Cache DetectionFull) "http://example.com" "auto"
      empty_page (fun _ => "model reply") (fun _ => none) 0 0 "t0").2
      (get_cache_key "http://example.com" ("detect_" ++ "auto")) = none :=
  detect_recipe_empty_content [] "http://example.com" "auto" empty_page
    (fun _ => "model reply") (fun _ => "another reply")
    (fun _ => none) (fun _ => some c1_raw) 0 0 "t0" rfl rfl

/-- C8 (counterexample to the claim as stated): at a concrete URL whose page
yields no analyzable content, the run short-circuits to the not-recipe
result, yet the returned cache has no entry under the URL detection key —
the short-circuit result is not stored. -/
theorem detect_recipe_shortcircuit_not_cached_cex :
    (detect_recipe ([] : Cache DetectionFull) "http://nocontent.example" "en" empty_page
      (fun _ => "") (fun _ => none) 0 0 "ts").1.reason =
      "No analyzable content found on the webpage" ∧
    (detect_recipe ([] : Cache DetectionFull) "http://nocontent.example" "en" empty_page
      (fun _ => "") (fun _ => none) 0 0 "ts").1.is_recipe = false ∧
    cache_lookup (detect_recipe ([] : Cache DetectionFull) "http://nocontent.example" "en"
      empty_page (fun _ => "") (fun _ => none) 0 0 "ts").2
      (get_cache_key "http://nocontent.example" "detect_en") = none :=
  ⟨rfl, rfl, rfl⟩
